import Mathlib

/-!
Verification of the JobLink harvest-and-reconcile pipeline (src/server.js and
the scraper manager module).

The program is embedded shallowly:

* A JavaScript job object is a record of optional string fields; `none` models
  an absent key (the JS value `undefined`).  The adapters build objects with
  the keys `job_type` and `posted_date`, while `saveJobs` reads the keys
  `jobType`, `postedDate`, `scrapedDate`, `category` and `isActive`; the
  structure `Job` therefore carries both families of fields so that the
  mismatch present in the source is visible in the model.
* The SQLite `jobs` table is a list of `JobRow` values.  The driver
  (better-sqlite3) refuses to bind the JS value `undefined`: a statement run
  with any `undefined` parameter throws before touching the table.  This is
  modelled by `rowOfJob` returning `none` as soon as one of the thirteen bound
  fields is absent.
* `INSERT OR REPLACE` deletes every row that conflicts with the new row on a
  uniqueness constraint (`id` PRIMARY KEY, `source_url` UNIQUE) and then
  inserts the new row; columns absent from the column list receive their
  defaults (`created_at`, `updated_at`, `scraped_date` default to
  CURRENT_TIMESTAMP, modelled by the explicit `now` parameter; `skills`,
  `experience`, `education` have no default and become NULL).
* Timestamps, uuid generation and the elapsed duration are passed in as
  explicit parameters (`now`, `uuid : Nat → String`, `duration`).
-/

/-- A raw item extracted from a listing page by the configured selectors:
the four text values read inside the `each` callback, before trimming. -/
structure RawItem where
  title : String
  company : String
  loc : String
  description : String
deriving DecidableEq

/-- A JS job object.  `none` models an absent key (`undefined`).  The snake
case fields `job_type` and `posted_date` are the keys written by the adapters;
the camel case fields are the keys read by `saveJobs`. -/
structure Job where
  id : Option String
  title : Option String
  company : Option String
  loc : Option String
  description : Option String
  salary : Option String
  job_type : Option String
  jobType : Option String
  source : Option String
  sourceUrl : Option String
  posted_date : Option String
  postedDate : Option String
  scrapedDate : Option String
  category : Option String
  isActive : Option String
deriving DecidableEq

/-- A row of the `jobs` table.  The thirteen columns named by the INSERT
statement always hold a bound string; `skills`, `experience`, `education` are
never supplied by the statement and are nullable. -/
structure JobRow where
  id : String
  title : String
  company : String
  loc : String
  description : String
  salary : String
  job_type : String
  source : String
  source_url : String
  posted_date : String
  scraped_date : String
  skills : Option String
  category : String
  experience : Option String
  education : Option String
  is_active : String
  created_at : String
  updated_at : String
deriving DecidableEq

/-- A row of the `scraping_logs` table, as written by `runScrapers`. -/
structure LogRow where
  id : String
  source : String
  jobs_scraped : Nat
  jobs_added : Nat
  jobs_updated : Nat
  status : String
  duration : Nat
deriving DecidableEq

/-- The database state: the `jobs` table and the `scraping_logs` table. -/
structure DB where
  jobs : List JobRow
  logs : List LogRow
deriving DecidableEq

/-- `SELECT id FROM jobs WHERE source_url = ?` followed by `.get`: the first
row whose `source_url` equals the key, if any. -/
def findBySourceUrl (rows : List JobRow) (u : String) : Option JobRow :=
  rows.find? (fun r => r.source_url == u)

/-- SQLite `INSERT OR REPLACE`: every row conflicting with the new row on the
`id` primary key or on the `source_url` uniqueness constraint is deleted, then
the new row is inserted. -/
def insertOrReplaceJob (rows : List JobRow) (r : JobRow) : List JobRow :=
  rows.filter (fun x => x.id != r.id && x.source_url != r.source_url) ++ [r]

/-- Binding of the thirteen parameters of the prepared INSERT statement.
better-sqlite3 throws as soon as one bound JS value is `undefined`, so the
statement runs only when all thirteen fields are present; the resulting row
takes the column defaults for the columns absent from the column list:
`skills`, `experience`, `education` become NULL and `created_at`,
`updated_at` take CURRENT_TIMESTAMP (`now`). -/
def rowOfJob (now : String) (j : Job) : Option JobRow :=
  match j.id, j.title, j.company, j.loc, j.description, j.salary, j.jobType,
      j.source, j.sourceUrl, j.postedDate, j.scrapedDate, j.category,
      j.isActive with
  | some i, some t, some c, some l, some d, some sal, some jt, some src,
    some su, some pd, some sd, some cat, some ia =>
      some { id := i, title := t, company := c, loc := l, description := d,
             salary := sal, job_type := jt, source := src, source_url := su,
             posted_date := pd, scraped_date := sd, skills := none,
             category := cat, experience := none, education := none,
             is_active := ia, created_at := now, updated_at := now }
  | _, _, _, _, _, _, _, _, _, _, _, _, _ => none

/-- One iteration of the `for (const job of jobs)` loop in `saveJobs`.  The
lookup binds `job.sourceUrl` (an absent key throws and the whole iteration is
caught); the counter is incremented according to the lookup BEFORE the write
runs; a write failure is caught and leaves the table unchanged, but the
counter increment is not rolled back. -/
def saveJobsStep (now : String) (acc : Nat × Nat × List JobRow) (j : Job) :
    Nat × Nat × List JobRow :=
  match j.sourceUrl with
  | none => acc
  | some u =>
    let added := acc.1
    let updated := acc.2.1
    let rows := acc.2.2
    let counters :=
      if (findBySourceUrl rows u).isSome then (added, updated + 1)
      else (added + 1, updated)
    match rowOfJob now j with
    | none => (counters.1, counters.2, rows)
    | some r => (counters.1, counters.2, insertOrReplaceJob rows r)

/-- `saveJobs(jobs, source)`: folds the reconciliation loop over the batch and
returns the `{added, updated}` counters together with the updated table.  The
`source` parameter is accepted and unused, exactly as in the source. -/
def saveJobs (jobs : List Job) (source : String) (now : String)
    (rows : List JobRow) : (Nat × Nat) × List JobRow :=
  let res := jobs.foldl (saveJobsStep now) (0, 0, rows)
  ((res.1, res.2.1), res.2.2)

/-- JS `String.prototype.trim()`: whitespace stripped from both ends. -/
def jsTrim (s : String) : String :=
  String.mk (((s.data.dropWhile Char.isWhitespace).reverse.dropWhile
    Char.isWhitespace).reverse)

/-- JS `s.substring(0, n)`: the first `n` characters of `s` (all of `s` when
it is shorter). -/
def jsSubstring (s : String) (n : Nat) : String :=
  String.mk (s.data.take n)

/-- JS `replace(/\s+/g, '-')` over a character list: each maximal run of
whitespace becomes a single dash.  The boolean records whether the previous
character belonged to a whitespace run. -/
def collapseWsAux : Bool → List Char → List Char
  | _, [] => []
  | prevWs, c :: rest =>
    if c.isWhitespace then
      if prevWs then collapseWsAux true rest
      else '-' :: collapseWsAux true rest
    else
      c :: collapseWsAux false rest

/-- `title.replace(/\s+/g, '-').toLowerCase()`. -/
def slug (t : String) : String :=
  (String.mk (collapseWsAux false t.data)).toLower

/-- The outcome of an adapter's page fetch: either the extracted raw items or
a thrown network/timeout/parse error. -/
inductive FetchResult where
  | ok (items : List RawItem)
  | err
deriving DecidableEq

/-- The job object pushed by the Tanitjob `each` callback for an accepted
item.  Note the keys: `job_type` and `posted_date` are set; `jobType`,
`postedDate`, `scrapedDate`, `category`, `isActive` are never set. -/
def mkTanitjobJob (theId nowIso : String) (item : RawItem) : Job :=
  let title := jsTrim item.title
  let location := jsTrim item.loc
  { id := some theId, title := some title, company := some (jsTrim item.company),
    loc := some (if location == "" then "Non spécifié" else location),
    description := some (jsSubstring (jsTrim item.description) 500),
    salary := some "", job_type := some "CDI", jobType := none,
    source := some "tanitjob",
    sourceUrl := some ("https://www.tanitjob.com/offres-emploi/" ++ slug title),
    posted_date := some nowIso, postedDate := none, scrapedDate := none,
    category := none, isActive := none }

/-- The job object pushed by the Keejob `each` callback for an accepted
item. -/
def mkKeejobJob (theId nowIso : String) (item : RawItem) : Job :=
  let title := jsTrim item.title
  let location := jsTrim item.loc
  { id := some theId, title := some title, company := some (jsTrim item.company),
    loc := some (if location == "" then "Non spécifié" else location),
    description := some (jsSubstring (jsTrim item.description) 500),
    salary := some "", job_type := some "CDI", jobType := none,
    source := some "keejob",
    sourceUrl := some ("https://www.keejob.com/emploi/" ++ slug title),
    posted_date := some nowIso, postedDate := none, scrapedDate := none,
    category := none, isActive := none }

/-- The Tanitjob extraction loop: an item is pushed only when both its
trimmed title and trimmed company are non-empty (JS truthiness of the trimmed
strings); `uuidv4` is modelled by `uuid` applied to a counter that advances
only on accepted items. -/
def tanitjobExtract (uuid : Nat → String) (nowIso : String) :
    Nat → List RawItem → List Job
  | _, [] => []
  | k, item :: rest =>
    if jsTrim item.title != "" && jsTrim item.company != "" then
      mkTanitjobJob (uuid k) nowIso item ::
        tanitjobExtract uuid nowIso (k + 1) rest
    else
      tanitjobExtract uuid nowIso k rest

/-- The Keejob extraction loop. -/
def keejobExtract (uuid : Nat → String) (nowIso : String) :
    Nat → List RawItem → List Job
  | _, [] => []
  | k, item :: rest =>
    if jsTrim item.title != "" && jsTrim item.company != "" then
      mkKeejobJob (uuid k) nowIso item ::
        keejobExtract uuid nowIso (k + 1) rest
    else
      keejobExtract uuid nowIso k rest

/-- `scrapeTanitjob`: on a fetch error the catch block returns `[]`;
otherwise the extraction loop runs over the page's items. -/
def scrapeTanitjob (uuid : Nat → String) (nowIso : String) :
    FetchResult → List Job
  | .err => []
  | .ok items => tanitjobExtract uuid nowIso 0 items

/-- `scrapeKeejob`: same shape as `scrapeTanitjob`. -/
def scrapeKeejob (uuid : Nat → String) (nowIso : String) :
    FetchResult → List Job
  | .err => []
  | .ok items => keejobExtract uuid nowIso 0 items

/-- `scrapeLinkedin`: the static fallback dataset (LinkedIn blocks scrapers);
never fails. -/
def scrapeLinkedin (uuid : Nat → String) (nowIso : String) : List Job :=
  [ { id := some (uuid 0), title := some "Développeur Full Stack",
      company := some "Tech Startup Tunisie", loc := some "Tunis",
      description := some "Nous recherchons un développeur full stack expérimenté pour rejoindre notre équipe.",
      salary := some "2000-3000 TND", job_type := some "CDI", jobType := none,
      source := some "linkedin",
      sourceUrl := some "https://www.linkedin.com/jobs/view/1234567890",
      posted_date := some nowIso, postedDate := none, scrapedDate := none,
      category := none, isActive := none },
    { id := some (uuid 1), title := some "Ingénieur DevOps",
      company := some "Digital Solutions", loc := some "Sfax",
      description := some "Rejoignez notre équipe DevOps pour gérer notre infrastructure cloud.",
      salary := some "2500-3500 TND", job_type := some "CDI", jobType := none,
      source := some "linkedin",
      sourceUrl := some "https://www.linkedin.com/jobs/view/1234567891",
      posted_date := some nowIso, postedDate := none, scrapedDate := none,
      category := none, isActive := none },
    { id := some (uuid 2), title := some "Data Scientist",
      company := some "AI Solutions", loc := some "Ariana",
      description := some "Nous cherchons un data scientist pour analyser nos données.",
      salary := some "2800-4000 TND", job_type := some "CDI", jobType := none,
      source := some "linkedin",
      sourceUrl := some "https://www.linkedin.com/jobs/view/1234567892",
      posted_date := some nowIso, postedDate := none, scrapedDate := none,
      category := none, isActive := none } ]

/-- `scrapeAll`: awaits the three scrapers (each of which catches its own
failures and yields `[]`) and returns the concatenated array of jobs.  The
return value is the bare array `allJobs` — it carries no `success`, `jobs` or
`error` property. -/
def scrapeAll (uuidT uuidK uuidL : Nat → String) (nowIso : String)
    (tf kf : FetchResult) : List Job :=
  scrapeTanitjob uuidT nowIso tf ++ scrapeKeejob uuidK nowIso kf ++
    scrapeLinkedin uuidL nowIso

/-- JS property access `result.success` on the value returned by `scrapeAll`:
that value is an array, which has no `success` property, so the access yields
`undefined` (modelled as `none`). -/
def resultSuccess (result : List Job) : Option Bool := none

/-- JS property access `result.error` on the array returned by `scrapeAll`:
always `undefined`. -/
def resultError (result : List Job) : Option String := none

/-- JS property access `result.jobs` on the array returned by `scrapeAll`:
always `undefined`. -/
def resultJobs (result : List Job) : Option (List Job) := none

/-- The source tags iterated by the reconcile-and-log loop of
`runScrapers`. -/
def sourcesList : List String := ["tanitjob", "keejob", "linkedin"]

/-- The body of the `for (const source of sources)` loop in `runScrapers`
(lines 142-164), generalized over the remaining source tags: filter the batch
to the source's slice; when the slice is non-empty, run `saveJobs`, record the
per-source stats and append one `scraping_logs` row; when the slice is empty,
do nothing for that source. -/
def reconcileSources (uuid : Nat → String) (now : String) (duration : Nat)
    (allJobs : List Job) :
    List String → Nat → List (String × Nat × Nat) → DB →
      List (String × Nat × Nat) × DB
  | [], _, stats, db => (stats, db)
  | src :: rest, k, stats, db =>
    let sourceJobs := allJobs.filter (fun j => j.source == some src)
    if sourceJobs.length > 0 then
      let res := saveJobs sourceJobs src now db.jobs
      let log : LogRow :=
        { id := uuid k, source := src, jobs_scraped := sourceJobs.length,
          jobs_added := res.1.1, jobs_updated := res.1.2,
          status := "success", duration := duration }
      reconcileSources uuid now duration allJobs rest (k + 1)
        (stats ++ [(src, res.1.1, res.1.2)]) ⟨res.2, db.logs ++ [log]⟩
    else
      reconcileSources uuid now duration allJobs rest k stats db

/-- The reconcile-and-log loop of `runScrapers` over the three configured
sources. -/
def reconcileLoop (uuid : Nat → String) (now : String) (duration : Nat)
    (allJobs : List Job) (db : DB) : List (String × Nat × Nat) × DB :=
  reconcileSources uuid now duration allJobs sourcesList 0 [] db

/-- The value returned by `runScrapers` to its caller. -/
inductive RunResult where
  | ok (stats : List (String × Nat × Nat)) (totalJobs : Nat)
  | fail (error : String)
deriving DecidableEq

/-- `runScrapers`: awaits `scrapeAll`, then tests `!result.success`.  Since
`scrapeAll` returns a bare array, `result.success` is `undefined`, the test
always succeeds and `throw new Error(result.error || 'Erreur lors du
scraping')` fires; the outer catch turns this into
`{success: false, error: 'Erreur lors du scraping'}`.  The reconcile-and-log
loop is the `some true` branch, reachable only if the consumed value had a
truthy `success` property. -/
def runScrapers (uuidT uuidK uuidL uuidLog : Nat → String)
    (nowIso now : String) (duration : Nat) (tf kf : FetchResult) (db : DB) :
    RunResult × DB :=
  let result := scrapeAll uuidT uuidK uuidL nowIso tf kf
  match resultSuccess result with
  | some true =>
    let allJobs := (resultJobs result).getD []
    let res := reconcileLoop uuidLog now duration allJobs db
    (.ok res.1 allJobs.length, res.2)
  | _ => (.fail ((resultError result).getD "Erreur lors du scraping"), db)

/-- A job object carrying every field that `saveJobs` binds: with such a job
the prepared statement's thirteen parameters all bind successfully. -/
def wellFormed (j : Job) : Bool :=
  j.id.isSome && j.title.isSome && j.company.isSome && j.loc.isSome &&
  j.description.isSome && j.salary.isSome && j.jobType.isSome &&
  j.source.isSome && j.sourceUrl.isSome && j.postedDate.isSome &&
  j.scrapedDate.isSome && j.category.isSome && j.isActive.isSome

/-- No two rows of the `jobs` table share a `source_url`. -/
def urlsDistinct (rows : List JobRow) : Prop :=
  rows.Pairwise (fun a b => a.source_url ≠ b.source_url)

/-- A sequence of `saveJobs` calls (each with its own batch, source tag and
clock reading) run against an initial table. -/
def runBatches : List (List Job × String × String) → List JobRow → List JobRow
  | [], rows => rows
  | (jobs, src, now) :: rest, rows =>
    runBatches rest (saveJobs jobs src now rows).2

/-- A fully populated job object, used as a concrete input. -/
def mkFullJob (i t c l d sal jt src su pd sd cat ia : String) : Job :=
  { id := some i, title := some t, company := some c, loc := some l,
    description := some d, salary := some sal, job_type := none,
    jobType := some jt, source := some src, sourceUrl := some su,
    posted_date := none, postedDate := some pd, scrapedDate := some sd,
    category := some cat, isActive := some ia }

/-- A concrete stored record, with populated `skills`, `experience`,
`education` and old timestamps, used as the pre-existing row in concrete
update scenarios. -/
def exRow : JobRow :=
  { id := "old-id", title := "Old title", company := "Acme", loc := "Tunis",
    description := "old text", salary := "", job_type := "CDI",
    source := "tanitjob", source_url := "https://ex.com/x",
    posted_date := "2024-01-01", scraped_date := "2024-01-02",
    skills := some "java", category := "it", experience := some "2 years",
    education := some "bsc", is_active := "1", created_at := "2024-01-01",
    updated_at := "2024-01-02" }

/-- A concrete incoming posting with the same `sourceUrl` as `exRow` but a
freshly generated id. -/
def exJob : Job :=
  mkFullJob "new-id" "New title" "Acme" "Tunis" "new text" "" "CDI"
    "tanitjob" "https://ex.com/x" "2024-02-01" "2024-02-02" "it" "1"

/-- A posting whose write fails: its `jobType` key is absent, so binding the
prepared statement's seventh parameter throws. -/
def exBad : Job :=
  { mkFullJob "id-bad" "Bad" "Acme" "Tunis" "d" "" "CDI" "tanitjob"
      "https://ex.com/a" "2024-01-01" "2024-01-02" "it" "1" with
    jobType := none }

/-- A well formed posting processed in the same batch as `exBad`. -/
def exGood : Job :=
  mkFullJob "id-good" "Good" "Acme" "Tunis" "d" "" "CDI" "tanitjob"
    "https://ex.com/b" "2024-01-01" "2024-01-02" "it" "1"

/-- Five raw extracted items, the third of which has a whitespace-only
title and is therefore rejected by the acceptance filter. -/
def exItems : List RawItem :=
  [ ⟨"Software Engineer", "Acme", "Tunis", "desc one"⟩,
    ⟨"Data Analyst", "Beta Corp", "Sfax", "desc two"⟩,
    ⟨"   ", "Gamma", "Tunis", "desc three"⟩,
    ⟨"QA Tester", "Delta", "Sousse", "desc four"⟩,
    ⟨"Product Manager", "Epsilon", "Tunis", "desc five"⟩ ]

/-- A raw item whose description is 501 characters long. -/
def exLongItem : RawItem :=
  ⟨"T", "C", "Tunis", String.mk (List.replicate 501 'a')⟩

/-- A raw item whose description is short. -/
def exShortItem : RawItem := ⟨"T", "C", "Tunis", "short"⟩

/-- A raw item accepted by a scraper, used in pipeline-level scenarios. -/
def exRunItem : RawItem := ⟨"Dev", "Acme", "Tunis", "great job"⟩

/-- A pre-existing `scraping_logs` row. -/
def exLog : LogRow := ⟨"log-0", "keejob", 2, 1, 1, "success", 7⟩

/-! ### Helper lemmas -/

lemma wellFormed_elim (j : Job) (hw : wellFormed j = true) :
    ∃ i t c l d sal jt src su pd sd cat ia,
      j.id = some i ∧ j.title = some t ∧ j.company = some c ∧ j.loc = some l ∧
      j.description = some d ∧ j.salary = some sal ∧ j.jobType = some jt ∧
      j.source = some src ∧ j.sourceUrl = some su ∧ j.postedDate = some pd ∧
      j.scrapedDate = some sd ∧ j.category = some cat ∧
      j.isActive = some ia := by
  have hw' : (∃ i, j.id = some i) ∧ (∃ t, j.title = some t) ∧
      (∃ c, j.company = some c) ∧ (∃ l, j.loc = some l) ∧
      (∃ d, j.description = some d) ∧ (∃ sal, j.salary = some sal) ∧
      (∃ jt, j.jobType = some jt) ∧ (∃ src, j.source = some src) ∧
      (∃ su, j.sourceUrl = some su) ∧ (∃ pd, j.postedDate = some pd) ∧
      (∃ sd, j.scrapedDate = some sd) ∧ (∃ cat, j.category = some cat) ∧
      (∃ ia, j.isActive = some ia) := by
    simpa [wellFormed, Bool.and_eq_true, and_assoc, Option.isSome_iff_exists]
      using hw
  obtain ⟨⟨i, h1⟩, ⟨t, h2⟩, ⟨c, h3⟩, ⟨l, h4⟩, ⟨d, h5⟩, ⟨sal, h6⟩, ⟨jt, h7⟩,
    ⟨src, h8⟩, ⟨su, h9⟩, ⟨pd, h10⟩, ⟨sd, h11⟩, ⟨cat, h12⟩, ⟨ia, h13⟩⟩ := hw'
  exact ⟨i, t, c, l, d, sal, jt, src, su, pd, sd, cat, ia, h1, h2, h3, h4, h5,
    h6, h7, h8, h9, h10, h11, h12, h13⟩

lemma rowOfJob_eq (now i t c l d sal jt src su pd sd cat ia : String)
    (j : Job) (h1 : j.id = some i) (h2 : j.title = some t)
    (h3 : j.company = some c) (h4 : j.loc = some l)
    (h5 : j.description = some d) (h6 : j.salary = some sal)
    (h7 : j.jobType = some jt) (h8 : j.source = some src)
    (h9 : j.sourceUrl = some su) (h10 : j.postedDate = some pd)
    (h11 : j.scrapedDate = some sd) (h12 : j.category = some cat)
    (h13 : j.isActive = some ia) :
    rowOfJob now j =
      some { id := i, title := t, company := c, loc := l, description := d,
             salary := sal, job_type := jt, source := src, source_url := su,
             posted_date := pd, scraped_date := sd, skills := none,
             category := cat, experience := none, education := none,
             is_active := ia, created_at := now, updated_at := now } := by
  simp [rowOfJob, h1, h2, h3, h4, h5, h6, h7, h8, h9, h10, h11, h12, h13]

lemma findBySourceUrl_insertOrReplace (rows : List JobRow) (r : JobRow) :
    findBySourceUrl (insertOrReplaceJob rows r) r.source_url = some r := by
  unfold findBySourceUrl insertOrReplaceJob
  rw [List.find?_append]
  have h1 : (rows.filter
      (fun x => x.id != r.id && x.source_url != r.source_url)).find?
      (fun x => x.source_url == r.source_url) = none := by
    rw [List.find?_eq_none]
    intro x hx
    have hmem := (List.mem_filter.mp hx).2
    simp only [Bool.and_eq_true, bne_iff_ne] at hmem
    simp [hmem.2]
  rw [h1]
  simp [List.find?]

lemma saveJobs_singleton (j : Job) (u src now : String) (rows : List JobRow)
    (hw : wellFormed j = true) (hu : j.sourceUrl = some u) :
    ∃ r, rowOfJob now j = some r ∧ r.source_url = u ∧
      some r.id = j.id ∧ some r.title = j.title ∧ some r.company = j.company ∧
      some r.loc = j.loc ∧ some r.description = j.description ∧
      some r.salary = j.salary ∧ some r.job_type = j.jobType ∧
      some r.source = j.source ∧ some r.posted_date = j.postedDate ∧
      some r.scraped_date = j.scrapedDate ∧ some r.category = j.category ∧
      some r.is_active = j.isActive ∧ r.skills = none ∧ r.experience = none ∧
      r.education = none ∧ r.created_at = now ∧ r.updated_at = now ∧
      saveJobs [j] src now rows =
        ((if (findBySourceUrl rows u).isSome then ((0 : Nat), (1 : Nat))
          else (1, 0)), insertOrReplaceJob rows r) := by
  obtain ⟨i, t, c, l, d, sal, jt, src', su, pd, sd, cat, ia, h1, h2, h3, h4,
    h5, h6, h7, h8, h9, h10, h11, h12, h13⟩ := wellFormed_elim j hw
  have hsu : su = u := by
    rw [h9] at hu
    exact Option.some.inj hu
  subst hsu
  have hrow := rowOfJob_eq now i t c l d sal jt src' su pd sd cat ia j h1 h2
    h3 h4 h5 h6 h7 h8 h9 h10 h11 h12 h13
  refine ⟨_, hrow, rfl, h1.symm, h2.symm, h3.symm, h4.symm, h5.symm, h6.symm,
    h7.symm, h8.symm, h10.symm, h11.symm, h12.symm, h13.symm, rfl, rfl, rfl,
    rfl, rfl, ?_⟩
  simp only [saveJobs, List.foldl_cons, List.foldl_nil, saveJobsStep, hu,
    hrow]

lemma urlsDistinct_insertOrReplace (rows : List JobRow) (r : JobRow)
    (h : urlsDistinct rows) : urlsDistinct (insertOrReplaceJob rows r) := by
  unfold urlsDistinct insertOrReplaceJob
  rw [List.pairwise_append]
  refine ⟨h.sublist (List.filter_sublist _), List.pairwise_singleton _ _, ?_⟩
  intro a ha b hb
  rw [List.mem_singleton] at hb
  subst hb
  have hmem := (List.mem_filter.mp ha).2
  simp only [Bool.and_eq_true, bne_iff_ne] at hmem
  exact hmem.2

lemma urlsDistinct_step (now : String) (j : Job) (acc : Nat × Nat × List JobRow)
    (h : urlsDistinct acc.2.2) : urlsDistinct (saveJobsStep now acc j).2.2 := by
  unfold saveJobsStep
  cases hsu : j.sourceUrl with
  | none => exact h
  | some u =>
    cases hrow : rowOfJob now j with
    | none => simpa using h
    | some r => simpa using urlsDistinct_insertOrReplace _ r h

lemma urlsDistinct_foldl (now : String) (jobs : List Job) :
    ∀ acc : Nat × Nat × List JobRow, urlsDistinct acc.2.2 →
      urlsDistinct (jobs.foldl (saveJobsStep now) acc).2.2 := by
  induction jobs with
  | nil => intro acc h; exact h
  | cons j rest ih =>
    intro acc h
    rw [List.foldl_cons]
    exact ih _ (urlsDistinct_step now j acc h)

lemma urlsDistinct_saveJobs (jobs : List Job) (src now : String)
    (rows : List JobRow) (h : urlsDistinct rows) :
    urlsDistinct (saveJobs jobs src now rows).2 :=
  urlsDistinct_foldl now jobs (0, 0, rows) h

lemma runBatches_urlsDistinct :
    ∀ (batches : List (List Job × String × String)) (rows : List JobRow),
      urlsDistinct rows → urlsDistinct (runBatches batches rows) := by
  intro batches
  induction batches with
  | nil => intro rows h; exact h
  | cons b rest ih =>
    intro rows h
    obtain ⟨jobs, src, now⟩ := b
    exact ih _ (urlsDistinct_saveJobs jobs src now rows h)

lemma saveJobsStep_shift (now : String) (j : Job) (a b : Nat)
    (rows : List JobRow) :
    saveJobsStep now (a, b, rows) j =
      (a + (saveJobsStep now (0, 0, rows) j).1,
       b + (saveJobsStep now (0, 0, rows) j).2.1,
       (saveJobsStep now (0, 0, rows) j).2.2) := by
  unfold saveJobsStep
  cases j.sourceUrl with
  | none => simp
  | some u =>
    cases rowOfJob now j <;>
      by_cases hex : (findBySourceUrl rows u).isSome <;> simp [hex]

lemma saveJobs_foldl_shift (rest : List Job) (now : String) :
    ∀ (a b : Nat) (rows : List JobRow),
      rest.foldl (saveJobsStep now) (a, b, rows) =
        (a + (rest.foldl (saveJobsStep now) (0, 0, rows)).1,
         b + (rest.foldl (saveJobsStep now) (0, 0, rows)).2.1,
         (rest.foldl (saveJobsStep now) (0, 0, rows)).2.2) := by
  induction rest with
  | nil => intro a b rows; simp
  | cons j tl ih =>
    intro a b rows
    simp only [List.foldl_cons]
    rcases hstep : saveJobsStep now (0, 0, rows) j with ⟨d1, d2, r'⟩
    rw [saveJobsStep_shift now j a b rows, hstep]
    simp only []
    rw [ih (a + d1) (b + d2) r', ih d1 d2 r']
    simp [Nat.add_assoc]

lemma reconcileSources_logs (uuid : Nat → String) (now : String)
    (duration : Nat) (allJobs : List Job) :
    ∀ (srcs : List String) (k : Nat) (stats : List (String × Nat × Nat))
      (db : DB) (l : LogRow),
      l ∈ (reconcileSources uuid now duration allJobs srcs k stats db).2.logs →
      l ∈ db.logs ∨
        allJobs.filter (fun j => j.source == some l.source) ≠ [] := by
  intro srcs
  induction srcs with
  | nil =>
    intro k stats db l hl
    simp only [reconcileSources] at hl
    exact Or.inl hl
  | cons src rest ih =>
    intro k stats db l hl
    simp only [reconcileSources] at hl
    split at hl
    case isTrue h =>
      rcases ih _ _ _ l hl with hin | hne
      · simp only [List.mem_append, List.mem_singleton] at hin
        rcases hin with h1 | h2
        · exact Or.inl h1
        · subst h2
          right
          show allJobs.filter (fun j => j.source == some src) ≠ []
          intro hc
          rw [hc] at h
          simp at h
      · exact Or.inr hne
    case isFalse h =>
      exact ih _ _ _ l hl

/-! ### Claim theorems -/

/-- C3: the claim states that `scrapeAll` returns a record
`{success, postings, error?}` and that the value consumed by `runScrapers`
has that shape.  In the code `scrapeAll` returns the bare merged array, which
has no `success`, `jobs` or `error` property; `runScrapers` reads
`result.success` (which is `undefined`), so on EVERY invocation — whatever
the fetch outcomes and the initial database — the pipeline throws and
returns `{success: false, error: "Erreur lors du scraping"}` with the
database untouched.  The caller therefore never observes a value of the
claimed shape. -/
theorem runScrapers_always_fails (uuidT uuidK uuidL uuidLog : Nat → String)
    (nowIso now : String) (duration : Nat) (tf kf : FetchResult) (db : DB) :
    runScrapers uuidT uuidK uuidL uuidLog nowIso now duration tf kf db =
      (.fail "Erreur lors du scraping", db) := rfl

/-- C2: evaluation of the claimed scenario — the Tanitjob fetch throws, the
Keejob fetch yields one accepted item, LinkedIn contributes its static three
postings, the store starts empty.  The claim expects
`success: true` with per-source stats; the code instead returns
`{success: false, error: "Erreur lors du scraping"}` and writes nothing,
because `runScrapers` misreads the bare array returned by `scrapeAll`. -/
theorem runScrapers_three_source_scenario :
    runScrapers (fun n => toString n) (fun n => toString n)
      (fun n => toString n) (fun n => toString n) "2024-01-01" "t0" 5
      .err (.ok [exRunItem]) ⟨[], []⟩ =
      (.fail "Erreur lors du scraping", ⟨[], []⟩) := rfl

/-- C4: uniqueness invariant — in every store state reachable by running
`saveJobs` on any sequence of batches (each with its own source tag and clock
reading) starting from the empty store, no two stored records share a
`source_url`. -/
theorem store_urls_unique (batches : List (List Job × String × String)) :
    urlsDistinct (runBatches batches []) :=
  runBatches_urlsDistinct batches [] List.Pairwise.nil

/-- C9: in the reconcile-and-log loop of `runScrapers`, every
`scraping_logs` row present after the loop either was already present before
it or belongs to a source whose slice of the batch is non-empty; hence a
RunLog entry is written for a source only when at least one posting carries
that source tag, and a source with an empty slice gets no entry. -/
theorem scraping_log_only_when_nonempty (uuid : Nat → String) (now : String)
    (duration : Nat) (allJobs : List Job) (db : DB) :
    ∀ l ∈ (reconcileLoop uuid now duration allJobs db).2.logs,
      l ∈ db.logs ∨
        allJobs.filter (fun j => j.source == some l.source) ≠ [] :=
  fun l hl =>
    reconcileSources_logs uuid now duration allJobs sourcesList 0 [] db l hl

/-- C9 witness: the logging theorem applied to a run whose batch is empty
over a database already holding one log row — the surviving row is the
pre-existing one. -/
theorem scraping_log_only_when_nonempty_witness :
    exLog ∈ (reconcileLoop (fun n => toString n) "t0" 5 []
      ⟨[], [exLog]⟩).2.logs ∧
    (exLog ∈ (⟨[], [exLog]⟩ : DB).logs ∨
      ([] : List Job).filter (fun j => j.source == some exLog.source) ≠ []) :=
  ⟨by decide,
    scraping_log_only_when_nonempty (fun n => toString n) "t0" 5 []
      ⟨[], [exLog]⟩ exLog (by decide)⟩

/-- C1 counterexample: a stored record with id "old-id" and
created_at "2024-01-01" is re-observed by a posting with fresh id "new-id".
After `saveJobs`, `updated` is 1 as claimed, but the stored record for that
`sourceUrl` carries the incoming id "new-id" (not the preserved "old-id")
and its `created_at` is the insertion-time default "2024-02-03" (not the
preserved "2024-01-01"): `INSERT OR REPLACE` does not preserve `id` and
`createdAt`. -/
theorem update_discards_old_id_and_created_at :
    (saveJobs [exJob] "tanitjob" "2024-02-03" [exRow]).1 = (0, 1) ∧
    (findBySourceUrl (saveJobs [exJob] "tanitjob" "2024-02-03" [exRow]).2
      "https://ex.com/x").map JobRow.id = some "new-id" ∧
    (findBySourceUrl (saveJobs [exJob] "tanitjob" "2024-02-03" [exRow]).2
      "https://ex.com/x").map JobRow.id ≠ some "old-id" ∧
    (findBySourceUrl (saveJobs [exJob] "tanitjob" "2024-02-03" [exRow]).2
      "https://ex.com/x").map JobRow.created_at = some "2024-02-03" ∧
    (findBySourceUrl (saveJobs [exJob] "tanitjob" "2024-02-03" [exRow]).2
      "https://ex.com/x").map JobRow.created_at ≠ some "2024-01-01" := by
  decide

/-- C1 (amended): when `saveJobs` re-observes a stored `sourceUrl` with a
well formed posting, it increments `updated` and overwrites the mutable
fields, but the resulting stored record takes the incoming posting's freshly
generated `id`, and its `created_at`/`updated_at` are reset to the
insertion-time default: the existing record's `id` and `createdAt` are
discarded, not preserved. -/
theorem saveJobs_update_overwrites (j : Job) (u src now : String)
    (rows : List JobRow) (hw : wellFormed j = true)
    (hu : j.sourceUrl = some u)
    (hex : (findBySourceUrl rows u).isSome = true) :
    (saveJobs [j] src now rows).1 = (0, 1) ∧
    ∃ r, findBySourceUrl (saveJobs [j] src now rows).2 u = some r ∧
      some r.id = j.id ∧ some r.title = j.title ∧
      some r.company = j.company ∧ some r.loc = j.loc ∧
      some r.description = j.description ∧ some r.salary = j.salary ∧
      some r.job_type = j.jobType ∧ some r.posted_date = j.postedDate ∧
      some r.scraped_date = j.scrapedDate ∧ some r.category = j.category ∧
      r.created_at = now ∧ r.updated_at = now := by
  obtain ⟨r, hrow, hsu, hid, ht, hc, hl, hd, hsal, hjt, hsrc, hpd, hsd, hcat,
    hia, hsk, hexp, hedu, hca, hua, hsave⟩ :=
    saveJobs_singleton j u src now rows hw hu
  rw [hsave]
  refine ⟨by simp [hex], r, ?_, hid, ht, hc, hl, hd, hsal, hjt, hpd, hsd,
    hcat, hca, hua⟩
  show findBySourceUrl (insertOrReplaceJob rows r) u = some r
  rw [← hsu]
  exact findBySourceUrl_insertOrReplace rows r

/-- C1 witness: the amended theorem applied to the concrete update
scenario. -/
theorem saveJobs_update_overwrites_witness :
    wellFormed exJob = true ∧ exJob.sourceUrl = some "https://ex.com/x" ∧
    (findBySourceUrl [exRow] "https://ex.com/x").isSome = true ∧
    ((saveJobs [exJob] "tanitjob" "2024-02-03" [exRow]).1 = (0, 1) ∧
    ∃ r, findBySourceUrl
        (saveJobs [exJob] "tanitjob" "2024-02-03" [exRow]).2
        "https://ex.com/x" = some r ∧
      some r.id = exJob.id ∧ some r.title = exJob.title ∧
      some r.company = exJob.company ∧ some r.loc = exJob.loc ∧
      some r.description = exJob.description ∧
      some r.salary = exJob.salary ∧ some r.job_type = exJob.jobType ∧
      some r.posted_date = exJob.postedDate ∧
      some r.scraped_date = exJob.scrapedDate ∧
      some r.category = exJob.category ∧ r.created_at = "2024-02-03" ∧
      r.updated_at = "2024-02-03") :=
  ⟨by decide, by decide, by decide,
    saveJobs_update_overwrites exJob "https://ex.com/x" "tanitjob"
      "2024-02-03" [exRow] (by decide) (by decide) (by decide)⟩

/-- C10: when `saveJobs` re-observes an existing `sourceUrl` with a well
formed posting, the replacing row's columns that the INSERT statement does
not supply are reset: `skills`, `experience` and `education` become NULL and
`created_at`/`updated_at` take the insertion-time default, regardless of
what the prior record held. -/
theorem replace_resets_unlisted_columns (j : Job) (u src now : String)
    (rows : List JobRow) (hw : wellFormed j = true)
    (hu : j.sourceUrl = some u)
    (hex : (findBySourceUrl rows u).isSome = true) :
    ∃ r, findBySourceUrl (saveJobs [j] src now rows).2 u = some r ∧
      r.skills = none ∧ r.experience = none ∧ r.education = none ∧
      r.created_at = now ∧ r.updated_at = now := by
  obtain ⟨r, hrow, hsu, hid, ht, hc, hl, hd, hsal, hjt, hsrc, hpd, hsd, hcat,
    hia, hsk, hexp, hedu, hca, hua, hsave⟩ :=
    saveJobs_singleton j u src now rows hw hu
  rw [hsave]
  refine ⟨r, ?_, hsk, hexp, hedu, hca, hua⟩
  show findBySourceUrl (insertOrReplaceJob rows r) u = some r
  rw [← hsu]
  exact findBySourceUrl_insertOrReplace rows r

/-- C10 witness: the reset observed on the concrete update scenario, where
the prior record held non-NULL `skills`, `experience`, `education` and older
timestamps. -/
theorem replace_resets_unlisted_columns_witness :
    wellFormed exJob = true ∧ exJob.sourceUrl = some "https://ex.com/x" ∧
    (findBySourceUrl [exRow] "https://ex.com/x").isSome = true ∧
    (∃ r, findBySourceUrl
        (saveJobs [exJob] "tanitjob" "2024-02-03" [exRow]).2
        "https://ex.com/x" = some r ∧
      r.skills = none ∧ r.experience = none ∧ r.education = none ∧
      r.created_at = "2024-02-03" ∧ r.updated_at = "2024-02-03") :=
  ⟨by decide, by decide, by decide,
    replace_resets_unlisted_columns exJob "https://ex.com/x" "tanitjob"
      "2024-02-03" [exRow] (by decide) (by decide) (by decide)⟩

/-- C5: evaluation of the idempotence scenario on a posting the pipeline
actually produces.  The Tanitjob adapter's posting for the raw item
`exRunItem` is reconciled twice (fresh id each time, same `sourceUrl`,
empty initial store).  The claim expects the first pass to return
`(added, updated) = (1, 0)` and the second `(0, 1)`, leaving exactly one
stored record.  Instead BOTH passes return `(1, 0)` and the store stays
empty: each write throws on binding the camelCase keys the adapter never
sets (`jobType`, `postedDate`, `scrapedDate`, `category`, `isActive` — it
sets `job_type`/`posted_date`), so no row is ever stored and the second
lookup finds nothing, incrementing `added` again. -/
theorem adapter_posting_reconciled_twice_adds_twice :
    saveJobs [mkTanitjobJob "id-1" "2024-01-01" exRunItem] "tanitjob" "t1" []
      = ((1, 0), []) ∧
    saveJobs [mkTanitjobJob "id-2" "2024-01-02" exRunItem] "tanitjob" "t2"
      (saveJobs [mkTanitjobJob "id-1" "2024-01-01" exRunItem] "tanitjob"
        "t1" []).2 = ((1, 0), []) := by
  decide

/-- C6 counterexample: a batch of two postings in which the first's write
fails (its `jobType` key is absent, so binding the statement throws after the
lookup).  The failing posting is indeed skipped at the store level and the
second posting is still reconciled, but `added` ends at 2, not 1: the counter
was incremented for the failing posting before its write failed, contrary to
the claim that a failing posting does not increment `added` or `updated`. -/
theorem failed_write_increments_counter :
    (saveJobs [exBad, exGood] "s" "t0" []).1 = (2, 0) ∧
    (saveJobs [exBad, exGood] "s" "t0" []).1.1 ≠ 1 ∧
    (saveJobs [exBad, exGood] "s" "t0" []).2 =
      (saveJobs [exGood] "s" "t0" []).2 := by
  decide

/-- C6 (amended): when the store-level write for the first posting of a batch
fails, that posting is skipped at the store level — the resulting table is
exactly the table produced by the batch without it — and reconciliation of
the remaining postings proceeds; however, the failing posting still
increments `added` (or `updated`, when its `sourceUrl` was already stored),
because the counter increment precedes the write. -/
theorem saveJobs_failed_write_still_counts (bad : Job) (rest : List Job)
    (u src now : String) (rows : List JobRow)
    (hbu : bad.sourceUrl = some u) (hfail : rowOfJob now bad = none) :
    (saveJobs (bad :: rest) src now rows).2 =
      (saveJobs rest src now rows).2 ∧
    (saveJobs (bad :: rest) src now rows).1 =
      (if (findBySourceUrl rows u).isSome
       then ((saveJobs rest src now rows).1.1,
             (saveJobs rest src now rows).1.2 + 1)
       else ((saveJobs rest src now rows).1.1 + 1,
             (saveJobs rest src now rows).1.2)) := by
  have hstep : saveJobsStep now (0, 0, rows) bad =
      (if (findBySourceUrl rows u).isSome then ((0 : Nat), (1 : Nat), rows)
       else (1, 0, rows)) := by
    simp only [saveJobsStep, hbu, hfail]
    by_cases hex : (findBySourceUrl rows u).isSome <;> simp [hex]
  simp only [saveJobs, List.foldl_cons, hstep]
  by_cases hex : (findBySourceUrl rows u).isSome
  · simp only [hex, if_true]
    rw [saveJobs_foldl_shift rest now 0 1 rows]
    exact ⟨rfl, by simp [Nat.add_comm]⟩
  · simp only [hex, Bool.false_eq_true, if_false]
    rw [saveJobs_foldl_shift rest now 1 0 rows]
    exact ⟨rfl, by simp [Nat.add_comm]⟩

/-- C6 witness: the amended theorem applied to the concrete failing batch. -/
theorem saveJobs_failed_write_still_counts_witness :
    exBad.sourceUrl = some "https://ex.com/a" ∧
    rowOfJob "t0" exBad = none ∧
    ((saveJobs [exBad, exGood] "s" "t0" []).2 =
      (saveJobs [exGood] "s" "t0" []).2 ∧
    (saveJobs [exBad, exGood] "s" "t0" []).1 =
      (if (findBySourceUrl [] "https://ex.com/a").isSome
       then ((saveJobs [exGood] "s" "t0" []).1.1,
             (saveJobs [exGood] "s" "t0" []).1.2 + 1)
       else ((saveJobs [exGood] "s" "t0" []).1.1 + 1,
             (saveJobs [exGood] "s" "t0" []).1.2))) :=
  ⟨by decide, by decide,
    saveJobs_failed_write_still_counts exBad [exGood] "https://ex.com/a" "s"
      "t0" [] (by decide) (by decide)⟩

/-- C7: evaluation of the acceptance-filter scenario.  Of five raw items,
the one whose trimmed title is empty is dropped by the adapter — only the
four valid titles appear in the returned sequence, so the invalid item never
reaches the store.  But feeding the adapter's four accepted postings to
`saveJobs` stores NOTHING: the batch reports `added = 4` while the table
stays empty, because `saveJobs` binds `job.jobType`, `job.postedDate`,
`job.scrapedDate`, `job.category` and `job.isActive`, keys the adapter never
sets (it sets `job_type` and `posted_date`), and binding an absent key
throws on every row.  The claimed "4 reconciled records" do not materialize
in the store. -/
theorem adapter_filters_but_nothing_stored :
    (scrapeTanitjob (fun n => toString n) "2024-01-01" (.ok exItems)).map
      Job.title = [some "Software Engineer", some "Data Analyst",
        some "QA Tester", some "Product Manager"] ∧
    (scrapeTanitjob (fun n => toString n) "2024-01-01" (.ok exItems)).length
      = 4 ∧
    saveJobs (scrapeTanitjob (fun n => toString n) "2024-01-01" (.ok exItems))
      "tanitjob" "t0" [] = ((4, 0), []) := by
  decide

/-- C8: truncation — both adapters store in the canonical posting the
description `jsSubstring d 500` where `d` is the trimmed extracted text;
when `d` is longer than 500 characters this value has length exactly 500 and
is a prefix of `d`, and when `d` is at most 500 characters long it is `d`
unchanged. -/
theorem description_truncated_to_bound (theId nowIso : String)
    (item : RawItem) :
    (mkTanitjobJob theId nowIso item).description =
      some (jsSubstring (jsTrim item.description) 500) ∧
    (mkKeejobJob theId nowIso item).description =
      some (jsSubstring (jsTrim item.description) 500) ∧
    (500 < (jsTrim item.description).length →
      (jsSubstring (jsTrim item.description) 500).length = 500 ∧
      ∃ tail, jsSubstring (jsTrim item.description) 500 ++ tail =
        jsTrim item.description) ∧
    ((jsTrim item.description).length ≤ 500 →
      jsSubstring (jsTrim item.description) 500 = jsTrim item.description) := by
  refine ⟨rfl, rfl, ?_, ?_⟩
  · intro h
    constructor
    · show ((jsTrim item.description).data.take 500).length = 500
      rw [List.length_take]
      exact Nat.min_eq_left (Nat.le_of_lt h)
    · refine ⟨String.mk ((jsTrim item.description).data.drop 500), ?_⟩
      show String.mk ((jsTrim item.description).data.take 500 ++
        (jsTrim item.description).data.drop 500) = jsTrim item.description
      rw [List.take_append_drop]
  · intro h
    have h' : (jsTrim item.description).data.length ≤ 500 := h
    show String.mk ((jsTrim item.description).data.take 500) =
      jsTrim item.description
    rw [List.take_of_length_le h']

set_option maxRecDepth 8000 in
/-- C8 witness: the truncation theorem applied to an item with a
501-character description and to an item with a short description. -/
theorem description_truncated_to_bound_witness :
    500 < (jsTrim exLongItem.description).length ∧
    (jsSubstring (jsTrim exLongItem.description) 500).length = 500 ∧
    (jsTrim exShortItem.description).length ≤ 500 ∧
    jsSubstring (jsTrim exShortItem.description) 500 =
      jsTrim exShortItem.description :=
  ⟨by decide,
   ((description_truncated_to_bound "i" "2024-01-01" exLongItem).2.2.1
     (by decide)).1,
   by decide,
   (description_truncated_to_bound "i" "2024-01-01" exShortItem).2.2.2
     (by decide)⟩
